import Mathlib

/-!
Shallow embedding of `recommendation_system.py` (a Streamlit book
recommendation app).  The file models the data artefacts loaded at start-up
(the book metadata table, the popular-books table, the ratings pivot matrix
and the pre-trained nearest-neighbour index) and the central function
`get_recommendations`, and proves the behavioural properties stated about it.

Modelling conventions:
* pandas DataFrames become Lean lists of records; boolean-mask filtering
  (`books[mask]`), which in pandas returns a fresh copy, becomes `List.filter`;
* the pre-trained KNN index (`model_knn.kneighbors`), an opaque artefact
  deserialised from disk, is an abstract function from a query row and a
  neighbour count to either a pair of (distances, row positions) or a raised
  exception (`Except.error`), since scikit-learn's `kneighbors` raises when,
  for instance, `n_neighbors` exceeds the number of fitted samples;
* float distances are modelled as rationals;
* the `try/except` wrapper of `get_recommendations` becomes a catch on
  `Except`: any raised error is converted into an empty result plus an
  error message, exactly as lines 85-87 of the source do.
-/

namespace BookRec

/-- A row of the book metadata table (`top_books.pkl`); the columns are the
ones the source reads: `isbn`, `book_title`, `book_author`, `publisher`,
`year_of_publication`, the three image URLs and the aggregate rating data. -/
structure Book where
  isbn : String
  book_title : String
  book_author : String
  publisher : String
  year_of_publication : ℚ
  img_s : String
  img_m : String
  img_l : String
  avg_rating : ℚ
  num_ratings : ℕ
deriving DecidableEq

/-- A row of the result DataFrame returned by `get_recommendations` after
line 78 dropped the `img_s` and `img_m` columns and line 75 added the
`distance` column. -/
structure RecBook where
  isbn : String
  book_title : String
  book_author : String
  publisher : String
  year_of_publication : ℚ
  img_l : String
  avg_rating : ℚ
  num_ratings : ℕ
  distance : ℚ
deriving DecidableEq

/-- The ratings pivot matrix (`ratings_pivot.pkl`): a row index of ISBNs and
one ratings vector per row. -/
structure Pivot where
  index : List String
  rows : List (List ℚ)

/-- The pre-trained nearest-neighbour index (`model_knn.pkl`), kept abstract:
`kneighbors` receives the query row and the requested neighbour count and
either returns the distances together with the row positions of the
neighbours, or raises (scikit-learn raises a `ValueError` when fewer than
`n_neighbors` samples were fitted). -/
structure KnnModel where
  kneighbors : List ℚ → ℕ → Except String (List ℚ × List ℕ)

/-- The artefacts loaded at process start (lines 21-24 of the source). -/
structure Env where
  popular_books : List Book
  books : List Book
  model_knn : KnnModel
  final_ratings_pivot : Pivot

/-- The user-facing notices `get_recommendations` can emit instead of (or,
for `st.error`, around) a result: the three `st.warning` calls of lines 41,
49 and 69 and the `st.error` of line 86. -/
inductive Msg where
  | titleNotFound
  | isbnNotFound
  | insufficientData
  | error (e : String)
deriving DecidableEq

/-- Line 40: `book_title in books['book_title'].values`. -/
def titleFound (env : Env) (t : String) : Bool :=
  env.books.any (fun b => decide (b.book_title = t))

/-- Line 45: `books[books['book_title'] == book_title]['isbn'].iloc[0]` -
the ISBN of the first metadata row whose title matches. -/
def resolvedIsbn (env : Env) (t : String) : Option String :=
  ((env.books.filter (fun b => decide (b.book_title = t))).head?).map Book.isbn

/-- Line 53: `final_ratings_pivot.index.get_loc(isbn)` - the first position
of a label in the pivot index. -/
def idxOfIsbn (isbn : String) : List String → ℕ
  | [] => 0
  | s :: rest => if s = isbn then 0 else idxOfIsbn isbn rest + 1

/-- Lines 53-59: fetch the query book's ratings row by position and ask the
index for its 6 nearest neighbours.  A missing row position raises (pandas
`iloc` raises an `IndexError`), and the model itself may raise. -/
def knnQuery (env : Env) (isbn : String) : Except String (List ℚ × List ℕ) :=
  match env.final_ratings_pivot.rows[idxOfIsbn isbn env.final_ratings_pivot.index]? with
  | none => Except.error "single positional indexer is out-of-bounds"
  | some row => env.model_knn.kneighbors row 6

/-- Positional lookup of each listed row position in the pivot index;
an out-of-range position raises (pandas `Index[i]` raises an `IndexError`). -/
def lookupIndexList (p : Pivot) : List ℕ → Except String (List String)
  | [] => Except.ok []
  | i :: is =>
    match p.index[i]? with
    | none => Except.error "index out of range"
    | some s =>
      match lookupIndexList p is with
      | Except.error e => Except.error e
      | Except.ok rest => Except.ok (s :: rest)

/-- Line 62: `[final_ratings_pivot.index[i] for i in indices.flatten()[1:]]` -
the ISBNs of the returned neighbours, the first returned row (the query row
itself) discarded. -/
def neighborIsbns (p : Pivot) (indices : List ℕ) : Except String (List String) :=
  lookupIndexList p (indices.drop 1)

/-- Line 65: `books[books['isbn'].isin(neighbor_isbns)]` - boolean-mask
filtering, which keeps the metadata table's own row order and returns a
fresh copy. -/
def filterTop (env : Env) (nIsbns : List String) : List Book :=
  env.books.filter (fun b => decide (b.isbn ∈ nIsbns))

/-- Lines 75 and 78 fused: attach a distance to a metadata record and drop
the `img_s` and `img_m` columns. -/
def mkRec (b : Book) (d : ℚ) : RecBook :=
  { isbn := b.isbn
    book_title := b.book_title
    book_author := b.book_author
    publisher := b.publisher
    year_of_publication := b.year_of_publication
    img_l := b.img_l
    avg_rating := b.avg_rating
    num_ratings := b.num_ratings
    distance := d }

/-- The ordering used by line 81's `sort_values('distance')`. -/
def distLe (a b : RecBook) : Prop :=
  a.distance ≤ b.distance

instance : DecidableRel distLe :=
  fun a b => inferInstanceAs (Decidable (a.distance ≤ b.distance))

instance : IsTotal RecBook distLe :=
  ⟨fun a b => le_total a.distance b.distance⟩

instance : IsTrans RecBook distLe :=
  ⟨fun _ _ _ h₁ h₂ => le_trans h₁ h₂⟩

/-- The body of `get_recommendations` (lines 38-83), written in the raising
`Except` monad; `get_recommendations` itself catches every raised error.
The steps mirror the source line by line: title check (40), ISBN resolution
(45), pivot-membership check (48), KNN query (53-59), neighbour ISBN
resolution (62), metadata filter (65), count-mismatch check (68-71),
positional distance attachment (74-75, raising as pandas does when the
array length differs from the frame length), column drop (78), sort and
truncation to 5 (81). -/
def getRecsExcept (env : Env) (book_title : String) :
    Except String (List RecBook × Option Msg) :=
  if titleFound env book_title = false then
    Except.ok ([], some Msg.titleNotFound)
  else
    match resolvedIsbn env book_title with
    | none => Except.error "single positional indexer is out-of-bounds"
    | some isbn =>
      if isbn ∈ env.final_ratings_pivot.index then
        match knnQuery env isbn with
        | Except.error e => Except.error e
        | Except.ok (distances, indices) =>
          match neighborIsbns env.final_ratings_pivot indices with
          | Except.error e => Except.error e
          | Except.ok nIsbns =>
            if nIsbns.length ≠ (filterTop env nIsbns).length then
              Except.ok ([], some Msg.insufficientData)
            else
              if (distances.drop 1).length ≠ (filterTop env nIsbns).length then
                Except.error "Length of values does not match length of index"
              else
                Except.ok
                  ((List.insertionSort distLe
                      (List.zipWith mkRec (filterTop env nIsbns) (distances.drop 1))).take 5,
                   none)
      else
        Except.ok ([], some Msg.isbnNotFound)

/-- Lines 37-87: `get_recommendations` - the body above with the enclosing
`try/except`, which converts any raised error into an empty result plus an
`st.error` message.  The returned pair is the result DataFrame together with
the notice shown to the user (`none` on success). -/
def get_recommendations (env : Env) (book_title : String) :
    List RecBook × Option Msg :=
  match getRecsExcept env book_title with
  | Except.ok r => r
  | Except.error e => ([], some (Msg.error e))

/-! ### Helper lemmas about the stages -/

theorem idxOfIsbn_getElem? {isbn : String} {l : List String} (h : isbn ∈ l) :
    l[idxOfIsbn isbn l]? = some isbn := by
  induction l with
  | nil => cases h
  | cons s rest ih =>
    by_cases hs : s = isbn
    · subst hs
      simp [idxOfIsbn]
    · have hmem : isbn ∈ rest := by
        rcases List.mem_cons.mp h with h' | h'
        · exact absurd h'.symm hs
        · exact h'
      simp [idxOfIsbn, hs, ih hmem]

theorem lookupIndexList_length {p : Pivot} {l : List ℕ} {out : List String}
    (h : lookupIndexList p l = Except.ok out) : out.length = l.length := by
  induction l generalizing out with
  | nil =>
    simp only [lookupIndexList] at h
    cases h
    rfl
  | cons i is ih =>
    simp only [lookupIndexList] at h
    cases hg : p.index[i]? with
    | none => rw [hg] at h; cases h
    | some s =>
      rw [hg] at h
      cases hrest : lookupIndexList p is with
      | error e => rw [hrest] at h; cases h
      | ok rest =>
        rw [hrest] at h
        cases h
        simp [ih hrest]

theorem lookupIndexList_mem {p : Pivot} {l : List ℕ} {out : List String} {s : String}
    (h : lookupIndexList p l = Except.ok out) (hs : s ∈ out) :
    ∃ i ∈ l, p.index[i]? = some s := by
  induction l generalizing out with
  | nil =>
    simp only [lookupIndexList] at h
    cases h
    cases hs
  | cons i is ih =>
    simp only [lookupIndexList] at h
    cases hg : p.index[i]? with
    | none => rw [hg] at h; cases h
    | some x =>
      rw [hg] at h
      cases hrest : lookupIndexList p is with
      | error e => rw [hrest] at h; cases h
      | ok rest =>
        rw [hrest] at h
        cases h
        rcases List.mem_cons.mp hs with h' | h'
        · exact ⟨i, List.mem_cons_self i is, by rw [hg, h']⟩
        · rcases ih hrest h' with ⟨j, hj, hjs⟩
          exact ⟨j, List.mem_cons_of_mem i hj, hjs⟩

theorem exists_of_mem_zipWith {as : List Book} {bs : List ℚ} {r : RecBook}
    (h : r ∈ List.zipWith mkRec as bs) :
    ∃ a ∈ as, ∃ d ∈ bs, r = mkRec a d := by
  induction as generalizing bs with
  | nil => cases h
  | cons a as ih =>
    cases bs with
    | nil => cases h
    | cons b bs =>
      rcases List.mem_cons.mp h with h' | h'
      · exact ⟨a, List.mem_cons_self a as, b, List.mem_cons_self b bs, h'⟩
      · rcases ih h' with ⟨a', ha', d, hd, hr⟩
        exact ⟨a', List.mem_cons_of_mem a ha', d, List.mem_cons_of_mem b hd, hr⟩

theorem pair_mem_of_mem_zipWith {as : List Book} {bs : List ℚ} {r : RecBook}
    (h : r ∈ List.zipWith mkRec as bs) :
    (r.isbn, r.distance) ∈ (as.map Book.isbn).zip bs := by
  induction as generalizing bs with
  | nil => cases h
  | cons a as ih =>
    cases bs with
    | nil => cases h
    | cons b bs =>
      rcases List.mem_cons.mp h with h' | h'
      · subst h'
        exact List.mem_cons_self _ _
      · exact List.mem_cons_of_mem _ (ih h')

theorem titleFound_of_resolved {env : Env} {t : String} {isbn : String}
    (h : resolvedIsbn env t = some isbn) : titleFound env t = true := by
  unfold resolvedIsbn at h
  unfold titleFound
  cases hh : (env.books.filter (fun b => decide (b.book_title = t))).head? with
  | none => rw [hh] at h; cases h
  | some b =>
    have hb : b ∈ env.books.filter (fun b => decide (b.book_title = t)) :=
      List.mem_of_mem_head? hh
    rw [List.mem_filter] at hb
    rw [List.any_eq_true]
    exact ⟨b, hb.1, hb.2⟩

/-- Case analysis on a run of `get_recommendations`: either the result list
is empty, or the run reached the success path, in which case the
intermediate values are as the source computes them and the result is the
sorted, truncated, positionally-zipped list. -/
theorem result_shape (env : Env) (t : String) :
    (get_recommendations env t).1 = [] ∨
    ∃ isbn ds idxs nIsbns,
      resolvedIsbn env t = some isbn ∧
      isbn ∈ env.final_ratings_pivot.index ∧
      knnQuery env isbn = Except.ok (ds, idxs) ∧
      neighborIsbns env.final_ratings_pivot idxs = Except.ok nIsbns ∧
      nIsbns.length = (filterTop env nIsbns).length ∧
      (ds.drop 1).length = (filterTop env nIsbns).length ∧
      get_recommendations env t =
        ((List.insertionSort distLe
            (List.zipWith mkRec (filterTop env nIsbns) (ds.drop 1))).take 5,
         none) := by
  by_cases h1 : titleFound env t = false
  · left
    simp [get_recommendations, getRecsExcept, h1]
  · cases hr : resolvedIsbn env t with
    | none =>
      left
      simp [get_recommendations, getRecsExcept, h1, hr]
    | some isbn =>
      by_cases h2 : isbn ∈ env.final_ratings_pivot.index
      · cases hk : knnQuery env isbn with
        | error e =>
          left
          simp [get_recommendations, getRecsExcept, h1, hr, h2, hk]
        | ok p =>
          obtain ⟨ds, idxs⟩ := p
          cases hn : neighborIsbns env.final_ratings_pivot idxs with
          | error e =>
            left
            simp [get_recommendations, getRecsExcept, h1, hr, h2, hk, hn]
          | ok nIsbns =>
            by_cases h3 : nIsbns.length = (filterTop env nIsbns).length
            · by_cases h4 : (ds.drop 1).length = (filterTop env nIsbns).length
              · right
                refine ⟨isbn, ds, idxs, nIsbns, rfl, h2, hk, hn, h3, h4, ?_⟩
                have h4' : ds.length - 1 = (filterTop env nIsbns).length := by
                  simpa using h4
                simp [get_recommendations, getRecsExcept, h1, hr, h2, hk, hn, h3, h4']
              · left
                have h4' : ¬ds.length - 1 = (filterTop env nIsbns).length := by
                  simpa using h4
                simp [get_recommendations, getRecsExcept, h1, hr, h2, hk, hn, h3, h4']
            · left
              simp [get_recommendations, getRecsExcept, h1, hr, h2, hk, hn, h3]
      · left
        simp [get_recommendations, getRecsExcept, h1, hr, h2]

/-- `get_recommendations` viewed as a state transformer over the loaded
artefacts: the call reads the environment and produces a result.  Because
boolean-mask filtering copies and all per-query column operations act on the
copy, the environment after the call is the environment before it. -/
def get_recommendations_state (env : Env) (t : String) :
    Env × (List RecBook × Option Msg) :=
  (env, get_recommendations env t)

theorem kneighbors_of_knnQuery {env : Env} {isbn : String} {ds : List ℚ} {idxs : List ℕ}
    (hk : knnQuery env isbn = Except.ok (ds, idxs)) :
    ∃ row,
      env.final_ratings_pivot.rows[idxOfIsbn isbn env.final_ratings_pivot.index]? = some row ∧
      env.model_knn.kneighbors row 6 = Except.ok (ds, idxs) := by
  unfold knnQuery at hk
  cases hrow : env.final_ratings_pivot.rows[idxOfIsbn isbn env.final_ratings_pivot.index]? with
  | none => rw [hrow] at hk; cases hk
  | some row => rw [hrow] at hk; exact ⟨row, rfl, hk⟩

theorem length_le_five (env : Env) (t : String) :
    (get_recommendations env t).1.length ≤ 5 := by
  rcases result_shape env t with h | ⟨isbn, ds, idxs, nIsbns, _, _, _, _, _, _, heq⟩
  · simp [h]
  · rw [heq]
    exact List.length_take_le 5 _

/-! ### The claims -/

/-- Claim C1: for every book title present in the metadata table whose
resolved ISBN has a row in the ratings pivot matrix, `get_recommendations`
returns at most 5 records, none of which is the queried book itself — the
first neighbour returned by the index (the query row, per the spec's
guarantee about the index) is discarded.  The hypotheses record that the
pivot index has no duplicate ISBNs and that the index returns the query row
first with pairwise-distinct row positions. -/
theorem claim1 (env : Env) (t isbn : String)
    (hnd : env.final_ratings_pivot.index.Nodup)
    (hr : resolvedIsbn env t = some isbn)
    (hm : isbn ∈ env.final_ratings_pivot.index)
    (hself : ∀ ds idxs, knnQuery env isbn = Except.ok (ds, idxs) →
      idxs.head? = some (idxOfIsbn isbn env.final_ratings_pivot.index) ∧ idxs.Nodup) :
    (get_recommendations env t).1.length ≤ 5 ∧
    ∀ r ∈ (get_recommendations env t).1, r.isbn ≠ isbn := by
  refine ⟨length_le_five env t, ?_⟩
  rcases result_shape env t with h | ⟨isbn', ds, idxs, nIsbns, hr', hm', hk, hn, h3, h4, heq⟩
  · rw [h]
    intro r hr2
    cases hr2
  · rw [hr] at hr'
    injection hr' with hi
    subst hi
    intro r hmem
    rw [heq] at hmem
    have hmem2 : r ∈ List.insertionSort distLe
        (List.zipWith mkRec (filterTop env nIsbns) (ds.drop 1)) :=
      (List.take_sublist 5 _).subset hmem
    have hmem3 : r ∈ List.zipWith mkRec (filterTop env nIsbns) (ds.drop 1) :=
      (List.perm_insertionSort distLe _).subset hmem2
    obtain ⟨b, hb, d, hd, hrb⟩ := exists_of_mem_zipWith hmem3
    have hisbn : r.isbn = b.isbn := by rw [hrb]; rfl
    have hbm : b.isbn ∈ nIsbns := by
      have hf := List.mem_filter.mp hb
      exact of_decide_eq_true hf.2
    obtain ⟨i, hi, hig⟩ := lookupIndexList_mem hn hbm
    obtain ⟨hhead, hnodup⟩ := hself ds idxs hk
    have hbne : i ≠ idxOfIsbn isbn env.final_ratings_pivot.index := by
      cases idxs with
      | nil => cases hi
      | cons a tail =>
        have ha : a = idxOfIsbn isbn env.final_ratings_pivot.index := by
          simp only [List.head?_cons, Option.some_inj] at hhead
          exact hhead
        have hnotin : a ∉ tail := (List.nodup_cons.mp hnodup).1
        intro hcontra
        have : i ∈ tail := by simpa using hi
        rw [hcontra, ← ha] at this
        exact hnotin this
    have hbg : env.final_ratings_pivot.index[idxOfIsbn isbn env.final_ratings_pivot.index]? =
        some isbn := idxOfIsbn_getElem? hm
    intro heq2
    rw [hisbn] at heq2
    rw [heq2] at hig
    rw [List.getElem?_eq_some] at hig hbg
    obtain ⟨hlt_i, hgi⟩ := hig
    obtain ⟨hlt_b, hgb⟩ := hbg
    exact hbne ((hnd.getElem_inj_iff).mp (hgi.trans hgb.symm))

/-- Claim C3: the list returned by `get_recommendations` is always sorted by
non-decreasing distance. -/
theorem claim3 (env : Env) (t : String) :
    List.Sorted distLe (get_recommendations env t).1 := by
  rcases result_shape env t with h | ⟨isbn, ds, idxs, nIsbns, _, _, _, _, _, _, heq⟩
  · rw [h]
    exact List.sorted_nil
  · rw [heq]
    exact List.Pairwise.sublist (List.take_sublist 5 _)
      (List.sorted_insertionSort distLe _)

/-- Claim C4: a query title absent from the metadata table, or whose
resolved ISBN has no row in the ratings pivot matrix, yields an empty result
together with a "not found" notice. -/
theorem claim4 (env : Env) (t isbn : String)
    (h : titleFound env t = false ∨
      (resolvedIsbn env t = some isbn ∧ isbn ∉ env.final_ratings_pivot.index)) :
    (get_recommendations env t).1 = [] ∧
    ((get_recommendations env t).2 = some Msg.titleNotFound ∨
     (get_recommendations env t).2 = some Msg.isbnNotFound) := by
  rcases h with h1 | ⟨hr, hm⟩
  · have hres : get_recommendations env t = ([], some Msg.titleNotFound) := by
      simp [get_recommendations, getRecsExcept, h1]
    rw [hres]
    exact ⟨rfl, Or.inl rfl⟩
  · have h1 : ¬titleFound env t = false := by
      simp [titleFound_of_resolved hr]
    have hres : get_recommendations env t = ([], some Msg.isbnNotFound) := by
      simp [get_recommendations, getRecsExcept, h1, hr, hm]
    rw [hres]
    exact ⟨rfl, Or.inr rfl⟩

/-- Claim C5: whenever the number of neighbour ISBNs resolved from the index
differs from the number of metadata records matched for them, the lookup
reports "insufficient data" (the `st.warning` of line 69) and returns an
empty result, never a partial or misaligned list. -/
theorem claim5 (env : Env) (t isbn : String) (ds : List ℚ) (idxs : List ℕ)
    (nIsbns : List String)
    (hr : resolvedIsbn env t = some isbn)
    (hm : isbn ∈ env.final_ratings_pivot.index)
    (hk : knnQuery env isbn = Except.ok (ds, idxs))
    (hn : neighborIsbns env.final_ratings_pivot idxs = Except.ok nIsbns)
    (hmis : nIsbns.length ≠ (filterTop env nIsbns).length) :
    get_recommendations env t = ([], some Msg.insufficientData) := by
  have h1 : ¬titleFound env t = false := by
    simp [titleFound_of_resolved hr]
  simp [get_recommendations, getRecsExcept, h1, hr, hm, hk, hn, hmis]

/-- Claim C6: `get_recommendations` never propagates an exception — the body
is wrapped so that every raised error becomes an empty result plus an error
message, and every user-facing message is accompanied by an empty result. -/
theorem claim6 (env : Env) (t : String) :
    (∀ m, (get_recommendations env t).2 = some m → (get_recommendations env t).1 = []) ∧
    (∀ e, getRecsExcept env t = Except.error e →
      get_recommendations env t = ([], some (Msg.error e))) := by
  constructor
  · intro m hm
    rcases result_shape env t with h | ⟨isbn, ds, idxs, nIsbns, _, _, _, _, _, _, heq⟩
    · exact h
    · rw [heq] at hm
      simp at hm
  · intro e he
    simp [get_recommendations, he]

/-- Claim C7: when the pivot matrix has fewer than 6 rows system-wide the
query still terminates with a well-formed result of at most
`index.length - 1` (and at most 5) records, provided the index returns
pairwise-distinct, in-range row positions; if the index raises instead (as
scikit-learn does when `n_neighbors` exceeds the sample count), the result
is empty and the bound holds trivially. -/
theorem claim7 (env : Env) (t : String)
    (hlt : env.final_ratings_pivot.index.length < 6)
    (hmodel : ∀ q ds idxs, env.model_knn.kneighbors q 6 = Except.ok (ds, idxs) →
      idxs.Nodup ∧ ∀ i ∈ idxs, i < env.final_ratings_pivot.index.length) :
    (get_recommendations env t).1.length ≤ env.final_ratings_pivot.index.length - 1 ∧
    (get_recommendations env t).1.length ≤ 5 := by
  refine ⟨?_, length_le_five env t⟩
  rcases result_shape env t with h | ⟨isbn, ds, idxs, nIsbns, hr, hm, hk, hn, h3, h4, heq⟩
  · simp [h]
  · obtain ⟨row, hrow, hcall⟩ := kneighbors_of_knnQuery hk
    obtain ⟨hnodup, hrange⟩ := hmodel row ds idxs hcall
    have hsub : idxs ⊆ List.range env.final_ratings_pivot.index.length :=
      fun i hi => List.mem_range.mpr (hrange i hi)
    have hlen : idxs.length ≤ env.final_ratings_pivot.index.length := by
      simpa using (hnodup.subperm hsub).length_le
    have hnl : nIsbns.length = idxs.length - 1 := by
      simpa using lookupIndexList_length hn
    rw [heq]
    calc ((List.insertionSort distLe
            (List.zipWith mkRec (filterTop env nIsbns) (ds.drop 1))).take 5).length
        ≤ (List.insertionSort distLe
            (List.zipWith mkRec (filterTop env nIsbns) (ds.drop 1))).length :=
          (List.take_sublist 5 _).length_le
      _ = (List.zipWith mkRec (filterTop env nIsbns) (ds.drop 1)).length :=
          List.length_insertionSort distLe _
      _ ≤ (filterTop env nIsbns).length := by
          rw [List.length_zipWith]; exact min_le_left _ _
      _ = nIsbns.length := h3.symm
      _ = idxs.length - 1 := hnl
      _ ≤ env.final_ratings_pivot.index.length - 1 := Nat.sub_le_sub_right hlen 1

/-- Claim C8: the lookup is deterministic in the book metadata table, the
ratings pivot matrix and the neighbour index — two calls with the same title
over unchanged such data yield identical ordered result lists, whatever the
rest of the environment (e.g. the popular-books table) does. -/
theorem claim8 (env₁ env₂ : Env) (t : String)
    (hb : env₁.books = env₂.books)
    (hm : env₁.model_knn = env₂.model_knn)
    (hp : env₁.final_ratings_pivot = env₂.final_ratings_pivot) :
    get_recommendations env₁ t = get_recommendations env₂ t := by
  obtain ⟨p₁, b₁, m₁, v₁⟩ := env₁
  obtain ⟨p₂, b₂, m₂, v₂⟩ := env₂
  simp only at hb hm hp
  subst hb
  subst hm
  subst hp
  rfl

/-- Claim C9: a query leaves the loaded artefacts unchanged — the distance
column, the image-column drop and the sort act only on the (copied) result,
so the state after the call, and each loaded table in it, is exactly the
state before it. -/
theorem claim9 (env : Env) (t : String) :
    (get_recommendations_state env t).1 = env ∧
    (get_recommendations_state env t).1.books = env.books ∧
    (get_recommendations_state env t).1.popular_books = env.popular_books ∧
    (get_recommendations_state env t).1.final_ratings_pivot = env.final_ratings_pivot ∧
    (get_recommendations_state env t).2 = get_recommendations env t :=
  ⟨rfl, rfl, rfl, rfl, rfl⟩

/-- Claim C10: since the index is always asked for 6 neighbours, the result
is either empty or contains exactly 5 records — no non-empty result with 1
to 4 records is ever produced.  The hypothesis records the scikit-learn
contract that a successful `kneighbors` call returns exactly the requested
number of distances and row positions. -/
theorem claim10 (env : Env) (t : String)
    (hmodel : ∀ q ds idxs, env.model_knn.kneighbors q 6 = Except.ok (ds, idxs) →
      ds.length = 6 ∧ idxs.length = 6) :
    (get_recommendations env t).1 = [] ∨ (get_recommendations env t).1.length = 5 := by
  rcases result_shape env t with h | ⟨isbn, ds, idxs, nIsbns, hr, hm, hk, hn, h3, h4, heq⟩
  · left
    exact h
  · right
    obtain ⟨row, hrow, hcall⟩ := kneighbors_of_knnQuery hk
    obtain ⟨hd6, hi6⟩ := hmodel row ds idxs hcall
    have hnl : nIsbns.length = idxs.length - 1 := by
      simpa using lookupIndexList_length hn
    have hni : nIsbns.length = 5 := by rw [hnl, hi6]
    have htop : (filterTop env nIsbns).length = 5 := by rw [← h3, hni]
    have hds : ds.length - 1 = 5 := by omega
    rw [heq]
    simp [List.length_take, List.length_insertionSort, List.length_zipWith, htop, hds]

/-- Claim C2, amended: line 75 attaches the raw distance array to the
metadata-filtered subset positionally, so the distance attached to each
returned record is the distance the index computed for that record's ISBN
only when the metadata filter returns the neighbour ISBNs in exactly the
order the index returned them (hypothesis `horder`); under that hypothesis
every returned record carries its own index-computed distance, i.e. its
(ISBN, distance) pair occurs in the identifier-joined association
`nIsbns.zip (ds.drop 1)`. -/
theorem claim2 (env : Env) (t isbn : String) (ds : List ℚ) (idxs : List ℕ)
    (nIsbns : List String)
    (hr : resolvedIsbn env t = some isbn)
    (hm : isbn ∈ env.final_ratings_pivot.index)
    (hk : knnQuery env isbn = Except.ok (ds, idxs))
    (hn : neighborIsbns env.final_ratings_pivot idxs = Except.ok nIsbns)
    (hlen : nIsbns.length = (filterTop env nIsbns).length)
    (hdlen : (ds.drop 1).length = (filterTop env nIsbns).length)
    (horder : (filterTop env nIsbns).map Book.isbn = nIsbns) :
    ∀ r ∈ (get_recommendations env t).1,
      (r.isbn, r.distance) ∈ nIsbns.zip (ds.drop 1) := by
  have h1 : ¬titleFound env t = false := by
    simp [titleFound_of_resolved hr]
  have hd' : ds.length - 1 = (filterTop env nIsbns).length := by
    simpa using hdlen
  have hres : get_recommendations env t =
      ((List.insertionSort distLe
          (List.zipWith mkRec (filterTop env nIsbns) (ds.drop 1))).take 5,
       none) := by
    simp [get_recommendations, getRecsExcept, h1, hr, hm, hk, hn, hlen, hd']
  intro r hmem
  rw [hres] at hmem
  have hmem2 := (List.take_sublist 5 _).subset hmem
  have hmem3 := (List.perm_insertionSort distLe _).subset hmem2
  have hp := pair_mem_of_mem_zipWith hmem3
  rwa [horder] at hp

/-! ### Concrete environments used by the counterexample and the witnesses -/

/-- A metadata record with the given ISBN and title and default values in
the remaining columns. -/
def mkBook (i t : String) : Book :=
  { isbn := i
    book_title := t
    book_author := ""
    publisher := ""
    year_of_publication := 0
    img_s := ""
    img_m := ""
    img_l := ""
    avg_rating := 0
    num_ratings := 0 }

/-- Environment exhibiting the data-alignment flaw: three books whose
pivot-index order is `i1, i2, i3`, and an index that, queried about `i1`,
returns neighbour row 2 (ISBN `i3`, distance 1) before neighbour row 1
(ISBN `i2`, distance 2) — the opposite of metadata-table order. -/
def envC2 : Env :=
  { popular_books := []
    books := [mkBook "i1" "A", mkBook "i2" "B", mkBook "i3" "C"]
    model_knn := ⟨fun _ _ => Except.ok ([0, 1, 2], [0, 2, 1])⟩
    final_ratings_pivot := ⟨["i1", "i2", "i3"], [[1], [1], [1]]⟩ }

/-- Claim C2, counterexample: in `envC2` the index reports ISBN `i3` at
distance 1 and ISBN `i2` at distance 2, but the returned records carry
(`i2`, 1) and (`i3`, 2): the positional attachment of line 75 joined each
distance to the wrong book, so the claim that every returned record carries
the distance computed for its own ISBN is false, and the ranking is
silently inverted. -/
theorem claim2_counterexample :
    knnQuery envC2 "i1" = Except.ok ([0, 1, 2], [0, 2, 1]) ∧
    neighborIsbns envC2.final_ratings_pivot [0, 2, 1] = Except.ok ["i3", "i2"] ∧
    (get_recommendations envC2 "A").1.map (fun r => (r.isbn, r.distance)) =
      [("i2", 1), ("i3", 2)] ∧
    ¬∀ r ∈ (get_recommendations envC2 "A").1,
        (r.isbn, r.distance) ∈ List.zip ["i3", "i2"] (([0, 1, 2] : List ℚ).drop 1) := by
  refine ⟨rfl, rfl, by decide, by decide⟩

/-- Six books, a six-row pivot matrix, and an index that, for any query,
returns the six rows in order with increasing distances. -/
def env6 : Env :=
  { popular_books := []
    books := [mkBook "i1" "A", mkBook "i2" "B", mkBook "i3" "C",
              mkBook "i4" "D", mkBook "i5" "E", mkBook "i6" "F"]
    model_knn := ⟨fun _ _ => Except.ok ([0, 1, 2, 3, 4, 5], [0, 1, 2, 3, 4, 5])⟩
    final_ratings_pivot :=
      ⟨["i1", "i2", "i3", "i4", "i5", "i6"], [[1], [1], [1], [1], [1], [1]]⟩ }

/-- `env6` with a different popular-books table. -/
def env6b : Env :=
  { popular_books := [mkBook "i1" "A"]
    books := env6.books
    model_knn := env6.model_knn
    final_ratings_pivot := env6.final_ratings_pivot }

/-- Two books only for ISBNs `i1` and `i2`, but a three-row pivot matrix:
the neighbour ISBNs `i2, i3` match a single metadata record, a count
mismatch. -/
def envC5 : Env :=
  { popular_books := []
    books := [mkBook "i1" "A", mkBook "i2" "B"]
    model_knn := ⟨fun _ _ => Except.ok ([0, 1, 2], [0, 1, 2])⟩
    final_ratings_pivot := ⟨["i1", "i2", "i3"], [[1], [1], [1]]⟩ }

/-- An environment whose neighbour index raises on every query. -/
def envErr : Env :=
  { popular_books := []
    books := [mkBook "i1" "A"]
    model_knn := ⟨fun _ _ => Except.error "boom"⟩
    final_ratings_pivot := ⟨["i1"], [[1]]⟩ }

/-! ### Witnesses -/

theorem claim1_witness :
    (get_recommendations env6 "A").1.length ≤ 5 ∧
    ∀ r ∈ (get_recommendations env6 "A").1, r.isbn ≠ "i1" := by
  refine claim1 env6 "A" "i1" (by decide) rfl (by decide) ?_
  intro ds idxs h
  have h' : (([0, 1, 2, 3, 4, 5] : List ℚ), ([0, 1, 2, 3, 4, 5] : List ℕ)) = (ds, idxs) :=
    Except.ok.inj ((rfl :
      knnQuery env6 "i1" =
        Except.ok (([0, 1, 2, 3, 4, 5] : List ℚ), ([0, 1, 2, 3, 4, 5] : List ℕ))).symm.trans h)
  injection h' with hd hi
  subst hd
  subst hi
  exact ⟨by decide, by decide⟩

theorem claim2_witness :
    ((mkRec (mkBook "i2" "B") 1).isbn, (mkRec (mkBook "i2" "B") 1).distance) ∈
      List.zip ["i2", "i3", "i4", "i5", "i6"] (([0, 1, 2, 3, 4, 5] : List ℚ).drop 1) :=
  claim2 env6 "A" "i1" [0, 1, 2, 3, 4, 5] [0, 1, 2, 3, 4, 5]
    ["i2", "i3", "i4", "i5", "i6"] rfl (by decide) rfl rfl (by decide) (by decide)
    (by decide) (mkRec (mkBook "i2" "B") 1) (by decide)

theorem claim4_witness :
    (get_recommendations env6 "Z").1 = [] ∧
    ((get_recommendations env6 "Z").2 = some Msg.titleNotFound ∨
     (get_recommendations env6 "Z").2 = some Msg.isbnNotFound) :=
  claim4 env6 "Z" "i1" (Or.inl (by decide))

theorem claim5_witness :
    get_recommendations envC5 "A" = ([], some Msg.insufficientData) :=
  claim5 envC5 "A" "i1" [0, 1, 2] [0, 1, 2] ["i2", "i3"] rfl (by decide) rfl rfl
    (by decide)

theorem claim6_witness :
    (get_recommendations envErr "A").1 = [] ∧
    get_recommendations envErr "A" = ([], some (Msg.error "boom")) :=
  ⟨(claim6 envErr "A").1 (Msg.error "boom") rfl, (claim6 envErr "A").2 "boom" rfl⟩

theorem claim7_witness :
    (get_recommendations envC2 "A").1.length ≤
      envC2.final_ratings_pivot.index.length - 1 ∧
    (get_recommendations envC2 "A").1.length ≤ 5 := by
  refine claim7 envC2 "A" (by decide) ?_
  intro q ds idxs h
  have h' : (([0, 1, 2] : List ℚ), ([0, 2, 1] : List ℕ)) = (ds, idxs) :=
    Except.ok.inj ((rfl :
      envC2.model_knn.kneighbors q 6 =
        Except.ok (([0, 1, 2] : List ℚ), ([0, 2, 1] : List ℕ))).symm.trans h)
  injection h' with hd hi
  subst hd
  subst hi
  exact ⟨by decide, by decide⟩

theorem claim8_witness :
    get_recommendations env6 "A" = get_recommendations env6b "A" :=
  claim8 env6 env6b "A" rfl rfl rfl

theorem claim10_witness :
    (get_recommendations env6 "A").1 = [] ∨
    (get_recommendations env6 "A").1.length = 5 := by
  refine claim10 env6 "A" ?_
  intro q ds idxs h
  have h' : (([0, 1, 2, 3, 4, 5] : List ℚ), ([0, 1, 2, 3, 4, 5] : List ℕ)) = (ds, idxs) :=
    Except.ok.inj ((rfl :
      env6.model_knn.kneighbors q 6 =
        Except.ok (([0, 1, 2, 3, 4, 5] : List ℚ), ([0, 1, 2, 3, 4, 5] : List ℕ))).symm.trans h)
  injection h' with hd hi
  subst hd
  subst hi
  exact ⟨by decide, by decide⟩

end BookRec
